import Mathlib

/-!
Verification of the openclaw bridge-session protocol against its sources:
the Android session (BridgeSession.kt), the iOS dispatcher
(NodeAppModel.swift) and the macOS node runtime (MacNodeRuntime).
Strings are modelled over their character lists; JSON values are a small
inductive covering the frame shapes of the wire protocol.
-/

/-- Whitespace trim over a character list; models Kotlin String.trim and
Swift trimmingCharacters(.whitespacesAndNewlines). -/
def trimChars (l : List Char) : List Char :=
  ((l.dropWhile Char.isWhitespace).reverse.dropWhile Char.isWhitespace).reverse

/-- String-level trim built on trimChars. -/
def trimWs (s : String) : String := ⟨trimChars s.data⟩

/-- Lowercasing, models Kotlin lowercase() on the ASCII hosts the protocol uses. -/
def lowerStr (s : String) : String := ⟨s.data.map Char.toLower⟩

/-- Split a character list on a separator character (every occurrence). -/
def splitOnChar (c : Char) : List Char → List (List Char)
  | [] => [[]]
  | ch :: rest =>
    let r := splitOnChar c rest
    if ch = c then [] :: r
    else
      match r with
      | [] => [[ch]]
      | h :: t => (ch :: h) :: t

/-- First occurrence of a (nonempty) separator substring: returns the parts
before and after it. -/
def breakOnSub (sep : List Char) : List Char → Option (List Char × List Char)
  | [] => none
  | ch :: rest =>
    if sep.isPrefixOf (ch :: rest) then some ([], (ch :: rest).drop sep.length)
    else
      match breakOnSub sep rest with
      | some (pre, post) => some (ch :: pre, post)
      | none => none

/-- String starts-with test, models Kotlin startsWith / Swift hasPrefix. -/
def strStartsWith (s p : String) : Bool := p.data.isPrefixOf s.data

/-- Does the string contain the given character. -/
def strContainsChar (s : String) (c : Char) : Bool := s.data.contains c

/-- Decimal digit characters to a natural number (callers guarantee digits). -/
def digitsToNat (l : List Char) : Nat := l.foldl (fun n c => n * 10 + (c.toNat - 48)) 0

/-- JSON values as exchanged by the newline-delimited frame protocol;
models the kotlinx.serialization JsonElement universe used by BridgeSession.kt. -/
inductive Json where
  | null
  | bool (b : Bool)
  | str (s : String)
  | num (n : Int)
  | arr (xs : List Json)
  | obj (fields : List (String × Json))

/-- Field access frame[k]; absent fields give none, as the Kotlin map access
gives null. -/
def Json.get (fields : List (String × Json)) (k : String) : Option Json :=
  (fields.find? (fun p => p.1 = k)).map (·.2)

/-- Models the asObjectOrNull extension of BridgeSession.kt: the element as a
JsonObject, or null. -/
def Json.asObjectOrNull : Json → Option (List (String × Json))
  | .obj fields => some fields
  | _ => none

/-- Models the asStringOrNull extension of BridgeSession.kt: JsonNull gives
null, any other primitive gives its content, composites give null. -/
def asStringOrNull : Option Json → Option String
  | some (.str s) => some s
  | some (.bool b) => some (cond b "true" "false")
  | some (.num n) => some (toString n)
  | _ => none

/-- Models the asBooleanOrNull extension of BridgeSession.kt: primitive content,
trimmed, compared case-insensitively with true/false. -/
def asBooleanOrNull : Option Json → Option Bool
  | some (.bool b) => some b
  | some (.str s) =>
    let c := lowerStr (trimWs s)
    if c = "true" then some true else if c = "false" then some false else none
  | _ => none

/-- A received line: either well-formed JSON or a line the JSON parser rejects
(kotlinx parseToJsonElement throws a SerializationException on the latter). -/
inductive Line where
  | wellFormed (j : Json)
  | malformed (raw : String)

/-- The endpoint record dialled by the session (spec section 3; fields as used
by BridgeSession.kt). -/
structure BridgeEndpoint where
  host : String
  port : Nat
  lanHost : Option String := none
  tailnetDns : Option String := none
  canvasPort : Option Int := none
  deriving Repr, DecidableEq

/-- Models isLoopbackHost of BridgeSession.kt. -/
def isLoopbackHost (raw : Option String) : Bool :=
  let host := lowerStr (trimWs (raw.getD ""))
  if host.isEmpty then false
  else if host = "localhost" then true
  else if host = "::1" then true
  else if host = "0.0.0.0" || host = "::" then true
  else strStartsWith host "127."

/-- The scheme/host/port view that normalizeCanvasHostUrl reads off a parsed
java.net.URI (port is -1 when absent, as URI.getPort reports). -/
structure UriView where
  scheme : Option String
  host : Option String
  port : Int
  deriving Repr, DecidableEq

/-- Models java.net.URI parsing restricted to the absolute
scheme://host[:port][/path] shapes the protocol advertises (no userinfo,
query or fragment handling; an IPv6 literal host keeps its brackets, as
URI.getHost does). Strings without "://" parse as URIs with no host, and a
non-numeric port or whitespace makes the constructor throw (none here). -/
def parseUriView (s : String) : Option UriView :=
  if s.data.any Char.isWhitespace then none
  else
    match breakOnSub "://".data s.data with
    | none => some ⟨none, none, -1⟩
    | some (schemeChars, rest) =>
      if schemeChars = [] then none
      else
        let authority : List Char := rest.takeWhile (fun c => c ≠ '/')
        if authority.head? = some '[' then
          match breakOnSub "]".data (authority.drop 1) with
          | none => none
          | some (h6, after) =>
            let hostStr : String := ⟨'[' :: h6 ++ [']']⟩
            match after with
            | [] => some ⟨some ⟨schemeChars⟩, some hostStr, -1⟩
            | ':' :: p =>
              if p ≠ [] ∧ p.all Char.isDigit then
                some ⟨some ⟨schemeChars⟩, some hostStr, (digitsToNat p : Int)⟩
              else if p = [] then some ⟨some ⟨schemeChars⟩, some hostStr, -1⟩
              else none
            | _ => none
        else
          match splitOnChar ':' authority with
          | [h] =>
            some ⟨some ⟨schemeChars⟩, if h = [] then none else some ⟨h⟩, -1⟩
          | [h, p] =>
            if p ≠ [] ∧ p.all Char.isDigit then
              some ⟨some ⟨schemeChars⟩, if h = [] then none else some ⟨h⟩,
                (digitsToNat p : Int)⟩
            else if p = [] then
              some ⟨some ⟨schemeChars⟩, if h = [] then none else some ⟨h⟩, -1⟩
            else none
          | _ => none

/-- The Kotlin fallback-host chain of normalizeCanvasHostUrl:
tailnetDns?.trim() if non-empty, else lanHost?.trim() if non-empty, else
endpoint.host.trim(). -/
def kotlinFallbackHost (tailnetDns lanHost : Option String) (host : String) :
    String :=
  match (tailnetDns.map trimWs).bind
      (fun t => if t = "" then none else some t) with
  | some t => t
  | none =>
    match (lanHost.map trimWs).bind
        (fun t => if t = "" then none else some t) with
    | some t => t
    | none => trimWs host

/-- Models normalizeCanvasHostUrl of BridgeSession.kt. -/
def normalizeCanvasHostUrl (raw : Option String) (endpoint : BridgeEndpoint) :
    Option String :=
  let trimmed := trimWs (raw.getD "")
  let parsed := if trimmed ≠ "" then parseUriView trimmed else none
  let host := trimWs ((parsed.bind (·.host)).getD "")
  let port : Int := (parsed.map (·.port)).getD (-1)
  let scheme0 := trimWs ((parsed.bind (·.scheme)).getD "")
  let scheme := if scheme0 = "" then "http" else scheme0
  if trimmed ≠ "" ∧ isLoopbackHost (some host) = false then some trimmed
  else
    let fallbackHost :=
      kotlinFallbackHost endpoint.tailnetDns endpoint.lanHost endpoint.host
    if fallbackHost = "" then (if trimmed = "" then none else some trimmed)
    else
      let fallbackPort : Int :=
        match endpoint.canvasPort with
        | some p => p
        | none => if port > 0 then port else 18793
      let formattedHost :=
        if strContainsChar fallbackHost ':' then "[" ++ fallbackHost ++ "]"
        else fallbackHost
      some (scheme ++ "://" ++ formattedHost ++ ":" ++ toString fallbackPort)

/-- Break a character list at the first occurrence of a character: the part
before it and the part after it, or none when absent. -/
def breakAtFirst (c : Char) (l : List Char) : Option (List Char × List Char) :=
  match l.dropWhile (fun x => x ≠ c) with
  | [] => none
  | _ :: post => some (l.takeWhile (fun x => x ≠ c), post)

/-- Kotlin split(":", limit = 2) on a character list: at most two parts, broken
at the first occurrence. -/
def splitLimit2 (c : Char) (l : List Char) : List Char × Option (List Char) :=
  match breakAtFirst c l with
  | some (pre, post) => (pre, some post)
  | none => (l, none)

/-- Error shape carried by res / invoke-res frames. -/
structure ErrorShape where
  code : String
  message : String
  deriving Repr, DecidableEq

/-- InvokeRequest of BridgeSession.kt. -/
structure InvokeRequest where
  id : String
  command : String
  paramsJson : Option String
  deriving Repr, DecidableEq

/-- InvokeResult of BridgeSession.kt. -/
structure InvokeResult where
  ok : Bool
  payloadJson : Option String
  error : Option ErrorShape
  deriving Repr, DecidableEq

/-- InvokeResult.ok companion constructor. -/
def InvokeResult.okRes (payloadJson : Option String) : InvokeResult :=
  ⟨true, payloadJson, none⟩

/-- InvokeResult.error companion constructor. -/
def InvokeResult.errorRes (code message : String) : InvokeResult :=
  ⟨false, none, some ⟨code, message⟩⟩

/-- Kotlin err.message?.trim().takeIf non-empty, else the class simple name. -/
def effectiveThrowableMessage (message : Option String) (className : String) :
    String :=
  match message.map trimWs with
  | some t => if t = "" then className else t
  | none => className

/-- The code-extraction step of invokeErrorFromThrowable on the effective
message: split at the first colon (Kotlin split with limit 2); a non-empty
prefix of uppercase letters and underscores becomes the code, with the
trimmed remainder (or the whole message) as the message; anything else is
UNAVAILABLE. Char.isUpper models Kotlin isUpperCase on the ASCII codes the
protocol uses. -/
def invokeErrorFromMessage (msg : String) : InvokeResult :=
  match splitLimit2 ':' msg.data with
  | (c0, some r0) =>
    let code := trimWs ⟨c0⟩
    let rest := trimWs ⟨r0⟩
    if code ≠ "" ∧ code.data.all (fun ch => ch.isUpper || ch = '_') then
      .errorRes code (if rest = "" then msg else rest)
    else .errorRes "UNAVAILABLE" msg
  | (_, none) => .errorRes "UNAVAILABLE" msg

/-- Models invokeErrorFromThrowable of BridgeSession.kt: a message of the form
CODE: rest with CODE nonempty, uppercase letters and underscores only, maps to
that code; anything else maps to UNAVAILABLE with the whole message. -/
def invokeErrorFromThrowable (message : Option String) (className : String) :
    InvokeResult :=
  invokeErrorFromMessage (effectiveThrowableMessage message className)

/-- RpcResponse of BridgeSession.kt. -/
structure RpcResponse where
  id : String
  ok : Bool
  payloadJson : Option String
  error : Option ErrorShape
  deriving Repr, DecidableEq

/-- How a pending waiter (CompletableDeferred) ends: completed with a response,
or cancelled at teardown (the awaiting caller then observes a failure). -/
inductive RpcOutcome where
  | response (resp : RpcResponse)
  | cancelled
  deriving Repr, DecidableEq

/-- The hello identity record of BridgeSession.kt. -/
structure Hello where
  nodeId : String
  displayName : Option String := none
  token : Option String := none
  platform : Option String := none
  version : Option String := none
  deviceFamily : Option String := none
  modelIdentifier : Option String := none
  caps : Option (List String) := none
  commands : Option (List String) := none

/-- Optional string field of an outbound frame (omitted when null). -/
def optField (k : String) (v : Option String) : List (String × Json) :=
  match v with
  | some s => [(k, .str s)]
  | none => []

/-- Optional string-array field of an outbound frame (omitted when null). -/
def optArrField (k : String) (v : Option (List String)) : List (String × Json) :=
  match v with
  | some xs => [(k, .arr (xs.map Json.str))]
  | none => []

/-- The hello frame sent by connectOnce. -/
def helloFrame (h : Hello) : Json :=
  .obj ([("type", .str "hello"), ("nodeId", .str h.nodeId)]
    ++ optField "displayName" h.displayName
    ++ optField "token" h.token
    ++ optField "platform" h.platform
    ++ optField "version" h.version
    ++ optField "deviceFamily" h.deviceFamily
    ++ optField "modelIdentifier" h.modelIdentifier
    ++ optArrField "caps" h.caps
    ++ optArrField "commands" h.commands)

/-- The req frame sent by request(); an absent paramsJson is sent as explicit
null, as in the Kotlin builder. -/
def reqFrame (id method : String) (paramsJson : Option String) : Json :=
  .obj [("type", .str "req"), ("id", .str id), ("method", .str method),
    ("paramsJSON", match paramsJson with | some p => .str p | none => .null)]

/-- The pong reply sent by the read loop. -/
def pongFrame (id : String) : Json :=
  .obj [("type", .str "pong"), ("id", .str id)]

/-- The invoke-res frame sent by the read loop after dispatching an invoke. -/
def invokeResFrame (id : String) (r : InvokeResult) : Json :=
  .obj ([("type", .str "invoke-res"), ("id", .str id), ("ok", .bool r.ok)]
    ++ (match r.payloadJson with
        | some p => [("payloadJSON", .str p)]
        | none => [])
    ++ (match r.error with
        | some e => [("error", .obj [("code", .str e.code),
            ("message", .str e.message)])]
        | none => []))

/-- Observable session state threaded through one connectOnce call: the canvas
host URL, the correlation table (pending ids), the resolutions delivered to
waiters, the frames written, and the emitted callbacks. -/
structure SessState where
  canvasHostUrl : Option String := none
  pending : List String := []
  resolved : List (String × RpcOutcome) := []
  sent : List Json := []
  events : List (String × Option String) := []
  connectedCalls : List (String × Option String) := []
  socketClosed : Bool := false

/-- Fresh session state at construction. -/
def initSessState : SessState := {}

/-- What an injected invoke handler does: return a result, or throw (the
read loop then maps the throwable via invokeErrorFromThrowable). -/
inductive HandlerOutcome where
  | ok (r : InvokeResult)
  | thrown (message : Option String) (className : String)

/-- One linearized step while connected: a received line, or a concurrent
request() registration (id into the table, req frame onto the wire). -/
inductive SessStep where
  | recv (l : Line)
  | localRequest (id method : String) (paramsJson : Option String)

/-- How the read loop ends: EOF (readLine null, break), the early return on an
event frame with no name, or a thrown error. -/
inductive LoopEnd where
  | eof
  | earlyReturn
  | thrown (msg : String)
  deriving Repr, DecidableEq

/-- Models the res branch: pending.remove(id) and complete the waiter with the
response if the id was outstanding, else a no-op. -/
def completeRes (s : SessState) (id : String) (resp : RpcResponse) : SessState :=
  if id ∈ s.pending then
    { s with pending := s.pending.erase id,
             resolved := (id, .response resp) :: s.resolved }
  else s

/-- Models the error-field decoding of a res frame: only a present object is
kept, with code and message defaults. -/
def parseErrorShape (e : Option Json) : Option ErrorShape :=
  match e with
  | some j =>
    match j.asObjectOrNull with
    | some eo => some ⟨(asStringOrNull (Json.get eo "code")).getD "UNAVAILABLE",
        (asStringOrNull (Json.get eo "message")).getD "request failed"⟩
    | none => none
  | none => none

/-- One step of the connected read loop of connectOnce (BridgeSession.kt lines
236 to 294), plus the request() registration path. A malformed line makes the
JSON parser throw, ending the loop; a well-formed non-object line or an object
with an unrecognized type falls through and the loop continues. -/
def sessStep (onInvoke : InvokeRequest → HandlerOutcome) (s : SessState) :
    SessStep → SessState × Option LoopEnd
  | .localRequest id method paramsJson =>
    ({ s with pending := id :: s.pending,
              sent := s.sent ++ [reqFrame id method paramsJson] }, none)
  | .recv (.malformed _) => (s, some (.thrown "malformed JSON line"))
  | .recv (.wellFormed j) =>
    match j.asObjectOrNull with
    | none => (s, none)
    | some frame =>
      match asStringOrNull (Json.get frame "type") with
      | some "event" =>
        match asStringOrNull (Json.get frame "event") with
        | none => (s, some .earlyReturn)
        | some ev =>
          ({ s with events := s.events ++
              [(ev, asStringOrNull (Json.get frame "payloadJSON"))] }, none)
      | some "ping" =>
        let id := (asStringOrNull (Json.get frame "id")).getD ""
        ({ s with sent := s.sent ++ [pongFrame id] }, none)
      | some "res" =>
        match asStringOrNull (Json.get frame "id") with
        | none => (s, none)
        | some id =>
          let ok := (asBooleanOrNull (Json.get frame "ok")).getD false
          let payloadJson := asStringOrNull (Json.get frame "payloadJSON")
          let error := parseErrorShape (Json.get frame "error")
          (completeRes s id ⟨id, ok, payloadJson, error⟩, none)
      | some "invoke" =>
        match asStringOrNull (Json.get frame "id") with
        | none => (s, none)
        | some id =>
          let command := (asStringOrNull (Json.get frame "command")).getD ""
          let params := asStringOrNull (Json.get frame "paramsJSON")
          let result :=
            match onInvoke ⟨id, command, params⟩ with
            | .ok r => r
            | .thrown m c => invokeErrorFromThrowable m c
          ({ s with sent := s.sent ++ [invokeResFrame id result] }, none)
      | some "invoke-res" => (s, none)
      | _ => (s, none)

/-- The read loop: process steps until one ends the loop, else EOF. -/
def runSteps (onInvoke : InvokeRequest → HandlerOutcome) (s : SessState) :
    List SessStep → SessState × LoopEnd
  | [] => (s, .eof)
  | st :: rest =>
    match sessStep onInvoke s st with
    | (s2, some e) => (s2, e)
    | (s2, none) => runSteps onInvoke s2 rest

/-- The finally block of connectOnce: cancel every pending waiter, clear the
table and close the socket. It runs on every exit, clean or thrown. -/
def teardown (s : SessState) : SessState :=
  { s with pending := [],
           resolved := s.pending.map (fun id => (id, RpcOutcome.cancelled))
             ++ s.resolved,
           socketClosed := true }

/-- The server name captured from a hello-ok frame, defaulting to Bridge. -/
def helloOkServerName (frame : List (String × Json)) : String :=
  (asStringOrNull (Json.get frame "serverName")).getD "Bridge"

/-- The raw canvas host URL of a hello-ok frame: trimmed, empty becomes null
(canvasHostUrl?.trim()?.ifEmpty of the Kotlin). -/
def helloOkRawCanvas (frame : List (String × Json)) : Option String :=
  (asStringOrNull (Json.get frame "canvasHostUrl")).bind
    (fun r => let t := trimWs r; if t = "" then none else some t)

/-- The message of the IllegalStateException thrown on an error first frame. -/
def errorFrameMessage (frame : List (String × Json)) : String :=
  (asStringOrNull (Json.get frame "code")).getD "UNAVAILABLE" ++ ": "
    ++ (asStringOrNull (Json.get frame "message")).getD "connect failed"

/-- Models the handshake of connectOnce (lines 212 to 234): read one reply
frame; hello-ok connects (capturing server name, remote address, normalized
canvas host URL), an error frame or any other first frame or EOF throws. -/
def handshake (endpoint : BridgeEndpoint) (remoteAddr : Option String)
    (first : Option Line) (s : SessState) : SessState × Option String :=
  match first with
  | none => (s, some "bridge closed connection")
  | some (.malformed _) => (s, some "malformed JSON line")
  | some (.wellFormed j) =>
    match j.asObjectOrNull with
    | none => (s, some "unexpected bridge response")
    | some frame =>
      match asStringOrNull (Json.get frame "type") with
      | some "hello-ok" =>
        (
          { s with
            canvasHostUrl :=
              normalizeCanvasHostUrl (helloOkRawCanvas frame) endpoint
            connectedCalls :=
              s.connectedCalls ++ [(helloOkServerName frame, remoteAddr)] },
          none)
      | some "error" => (s, some (errorFrameMessage frame))
      | _ => (s, some "unexpected bridge response")

/-- Models one connectOnce call: send hello, handshake on the first reply
frame, then run the read loop, with the finally block on every exit path.
The Except result is what the caller (runLoop) observes: ok on a clean
return, error when a throwable escaped. -/
def connectOnce (onInvoke : InvokeRequest → HandlerOutcome)
    (endpoint : BridgeEndpoint) (hello : Hello) (remoteAddr : Option String)
    (first : Option Line) (steps : List SessStep) (s0 : SessState) :
    SessState × Except String Unit :=
  let s1 := { s0 with sent := s0.sent ++ [helloFrame hello] }
  match handshake endpoint remoteAddr first s1 with
  | (s2, some e) => (teardown s2, .error e)
  | (s2, none) =>
    match runSteps onInvoke s2 steps with
    | (s3, .thrown m) => (teardown s3, .error m)
    | (s3, _) => (teardown s3, .ok ())

/-- The backoff sleep of runLoop (BridgeSession.kt line 164):
minOf(8000, (350.0 * 1.7 pow attempt).toLong()), written with exact rational
arithmetic; truncation toward zero on the positive values is floor, which is
natural-number division here. Below the 8000 cap only attempts 1 to 5 matter
and their values are far from integer boundaries, so the Double computation
agrees. -/
def sleepMs (attempt : Nat) : Nat := min 8000 (350 * 17 ^ attempt / 10 ^ attempt)

/-- One runLoop iteration outcome (BridgeSession.kt lines 156 to 166): a clean
connectOnce return resets the attempt counter and sleeps nothing; a thrown
connectOnce increments it and sleeps the backoff delay for the new count. -/
def runLoopStep (attempt : Nat) (r : Except String Unit) : Nat × Option Nat :=
  match r with
  | .ok _ => (0, none)
  | .error _ => (attempt + 1, some (sleepMs (attempt + 1)))

/-- Fold runLoopStep over a list of connectOnce outcomes, collecting the sleep
performed after each. -/
def runOutcomes (attempt0 : Nat) : List (Except String Unit) → Nat × List (Option Nat)
  | [] => (attempt0, [])
  | r :: rs =>
    let p := runLoopStep attempt0 r
    let q := runOutcomes p.1 rs
    (q.1, p.2 :: q.2)

/-- Status string runLoop emits before an attempt. -/
def attemptStatus (attempt : Nat) : String :=
  if attempt = 0 then "Connecting…" else "Reconnecting…"

/-- Status string runLoop emits when connectOnce threw. -/
def failureStatus (e : String) : String := "Bridge error: " ++ e

/-- The desired pair plus canvas URL held by the BridgeSession object. -/
structure BridgeTop where
  desired : Option (BridgeEndpoint × Hello)
  canvasHostUrl : Option String

/-- Models disconnect() of BridgeSession.kt: clear desired, cancel the loop,
clear canvasHostUrl and emit the Offline status. -/
def disconnectSession (_s : BridgeTop) : BridgeTop × String :=
  (⟨none, none⟩, "Offline")

/-- ClawdisNodeErrorCode cases used by the dispatchers in the sources. -/
inductive ClawdisNodeErrorCode where
  | unavailable
  | invalidRequest
  | backgroundUnavailable
  deriving Repr, DecidableEq

/-- Modelled from the spec: the wire serialization of ClawdisNodeErrorCode
(declared in ClawdisKit, which is not among the sources). Section 7 of the
spec names the codes UNAVAILABLE, INVALID_REQUEST and
NODE_BACKGROUND_UNAVAILABLE, which are the strings carried by
invoke-res error.code on the wire. -/
def ClawdisNodeErrorCode.wire : ClawdisNodeErrorCode → String
  | .unavailable => "UNAVAILABLE"
  | .invalidRequest => "INVALID_REQUEST"
  | .backgroundUnavailable => "NODE_BACKGROUND_UNAVAILABLE"

/-- ClawdisNodeError as built by the Swift dispatchers. -/
structure ClawdisNodeError where
  code : ClawdisNodeErrorCode
  message : String
  deriving Repr, DecidableEq

/-- BridgeInvokeRequest as consumed by the Swift dispatchers. -/
structure BridgeInvokeRequest where
  id : String
  command : String
  paramsJSON : Option String := none
  deriving Repr, DecidableEq

/-- BridgeInvokeResponse as produced by the Swift dispatchers. -/
structure BridgeInvokeResponse where
  id : String
  ok : Bool
  payloadJSON : Option String := none
  error : Option ClawdisNodeError := none
  deriving Repr, DecidableEq

/-- Instrumentation: which external capability bodies a dispatch ran. -/
inductive CapabilityCall where
  | cameraSnap
  | cameraClip
  | otherCall (command : String)
  deriving Repr, DecidableEq

/-- errorResponse helper of MacNodeRuntime / the inline Swift constructions. -/
def errorResponse (req : BridgeInvokeRequest) (code : ClawdisNodeErrorCode)
    (message : String) : BridgeInvokeResponse :=
  ⟨req.id, false, none, some ⟨code, message⟩⟩

/-- Injected state and capability bodies of the iOS dispatcher
(NodeAppModel.handleInvoke). Each body either returns a response or throws a
message (Swift error.localizedDescription); bodies own their params decoding,
capture and payload encoding, which are external to the dispatcher. -/
structure IosDeps where
  isBackgrounded : Bool
  cameraEnabled : Bool
  snapBody : BridgeInvokeRequest → Except String BridgeInvokeResponse
  clipBody : BridgeInvokeRequest → Except String BridgeInvokeResponse
  otherBody : BridgeInvokeRequest → Except String BridgeInvokeResponse

/-- Models handleInvoke of NodeAppModel.swift (lines 401 to 646): the
background gate on canvas./camera./screen. commands, then the camera-enabled
gate on camera. commands, then the command switch whose camera cases run the
capture bodies; a thrown body is caught and mapped to an unavailable error
response. Command name strings follow the spec command surface (section 6).
The second component records which capability bodies ran. -/
def iosHandleInvoke (d : IosDeps) (req : BridgeInvokeRequest) :
    BridgeInvokeResponse × List CapabilityCall :=
  let command := req.command
  if (strStartsWith command "canvas." || strStartsWith command "camera."
      || strStartsWith command "screen.") && d.isBackgrounded then
    (errorResponse req .backgroundUnavailable
      "NODE_BACKGROUND_UNAVAILABLE: canvas/camera/screen commands require foreground",
     [])
  else if strStartsWith command "camera." && !d.cameraEnabled then
    (errorResponse req .unavailable
      "CAMERA_DISABLED: enable Camera in iOS Settings → Camera → Allow Camera",
     [])
  else if command = "camera.snap" then
    match d.snapBody req with
    | .ok r => (r, [.cameraSnap])
    | .error msg => (errorResponse req .unavailable msg, [.cameraSnap])
  else if command = "camera.clip" then
    match d.clipBody req with
    | .ok r => (r, [.cameraClip])
    | .error msg => (errorResponse req .unavailable msg, [.cameraClip])
  else
    match d.otherBody req with
    | .ok r => (r, [.otherCall command])
    | .error msg => (errorResponse req .unavailable msg, [.otherCall command])

/-- Injected state and capability bodies of the macOS dispatcher
(MacNodeRuntime.handleInvoke). -/
structure MacDeps where
  canvasEnabled : Bool
  cameraEnabled : Bool
  snapBody : BridgeInvokeRequest → Except String BridgeInvokeResponse
  clipBody : BridgeInvokeRequest → Except String BridgeInvokeResponse
  otherBody : BridgeInvokeRequest → Except String BridgeInvokeResponse

/-- Models handleInvoke of MacNodeRuntime (part_000 lines 11 to 200): the
canvas-enabled gate on canvas. commands, then the switch; the camera cases
guard on the camera capability before decoding params or capturing, and a
thrown body is caught and mapped to an unavailable error response. -/
def macHandleInvoke (d : MacDeps) (req : BridgeInvokeRequest) :
    BridgeInvokeResponse × List CapabilityCall :=
  let command := req.command
  if (strStartsWith command "canvas." || strStartsWith command "canvas.a2ui.")
      && !d.canvasEnabled then
    (errorResponse req .unavailable "CANVAS_DISABLED: enable Canvas in Settings",
     [])
  else if command = "camera.snap" then
    if !d.cameraEnabled then
      (errorResponse req .unavailable "CAMERA_DISABLED: enable Camera in Settings",
       [])
    else
      match d.snapBody req with
      | .ok r => (r, [.cameraSnap])
      | .error msg => (errorResponse req .unavailable msg, [.cameraSnap])
  else if command = "camera.clip" then
    if !d.cameraEnabled then
      (errorResponse req .unavailable "CAMERA_DISABLED: enable Camera in Settings",
       [])
    else
      match d.clipBody req with
      | .ok r => (r, [.cameraClip])
      | .error msg => (errorResponse req .unavailable msg, [.cameraClip])
  else
    match d.otherBody req with
    | .ok r => (r, [.otherCall command])
    | .error msg => (errorResponse req .unavailable msg, [.otherCall command])

/-- Snapshot formats of ClawdisCanvasSnapshotParams. -/
inductive ClawdisCanvasSnapshotFormat where
  | png
  | jpeg
  deriving Repr, DecidableEq

/-- ClawdisCanvasSnapshotParams as decoded by the canvas.snapshot cases. -/
structure ClawdisCanvasSnapshotParams where
  format : Option ClawdisCanvasSnapshotFormat := none
  maxWidth : Option Int := none
  quality : Option ℚ := none

/-- Models the format default of the canvas.snapshot case (params?.format ??
.jpeg); params is none when decoding failed. -/
def snapshotFormat (params : Option ClawdisCanvasSnapshotParams) :
    ClawdisCanvasSnapshotFormat :=
  (params.bind (·.format)).getD .jpeg

/-- Models the maxWidth selection of the canvas.snapshot case: a positive
explicit value is used, anything else falls back to 900 for PNG and 1600
for JPEG. -/
def snapshotMaxWidth (params : Option ClawdisCanvasSnapshotParams)
    (format : ClawdisCanvasSnapshotFormat) : Int :=
  match params.bind (·.maxWidth) with
  | some raw =>
    if raw > 0 then raw
    else match format with | .png => 900 | .jpeg => 1600
  | none => match format with | .png => 900 | .jpeg => 1600

/-- Models the quality default of the macOS canvas.snapshot case
(params?.quality ?? 0.9). -/
def snapshotQuality (params : Option ClawdisCanvasSnapshotParams) : ℚ :=
  (params.bind (·.quality)).getD (9 / 10)

/-- Models the JPEG quality clamp of encodeCanvasSnapshot:
min(1.0, max(0.05, quality)). -/
def clampJpegQuality (q : ℚ) : ℚ := min 1 (max (1 / 20) q)

/-- First entry of a candidate list that is non-empty. -/
def firstNonEmpty (candidates : List String) : Option String :=
  (candidates.filter (fun t => t ≠ "")).head?

/-- The resolution rule restated from the (amended) spec sentence: a
non-empty advertised URL whose parsed host is not loopback is used verbatim;
otherwise the fallback host is the first non-empty of tailnet DNS name, LAN
host, raw connect host (each trimmed), the port is the explicit canvasPort,
else the advertised port when positive, else 18793, and the scheme is the
advertised scheme or http; with no non-empty fallback host the advertised
string (or null when empty) is returned, and an IPv6 fallback host is
bracketed. -/
def canvasHostResolutionSpec (raw : Option String) (ep : BridgeEndpoint) :
    Option String :=
  let advertised := trimWs (raw.getD "")
  let parsed := if advertised ≠ "" then parseUriView advertised else none
  let advHost := trimWs ((parsed.bind (·.host)).getD "")
  let advPort : Int := (parsed.map (·.port)).getD (-1)
  let scheme0 := trimWs ((parsed.bind (·.scheme)).getD "")
  let scheme := if scheme0 = "" then "http" else scheme0
  if advertised ≠ "" ∧ isLoopbackHost (some advHost) = false then
    some advertised
  else
    match firstNonEmpty [trimWs (ep.tailnetDns.getD ""),
        trimWs (ep.lanHost.getD ""), trimWs ep.host] with
    | none => if advertised = "" then none else some advertised
    | some fh =>
      let port : Int :=
        match ep.canvasPort with
        | some p => p
        | none => if advPort > 0 then advPort else 18793
      let fhFmt := if strContainsChar fh ':' then "[" ++ fh ++ "]" else fh
      some (scheme ++ "://" ++ fhFmt ++ ":" ++ toString port)

theorem firstNonEmpty_three (a b c : String) :
    firstNonEmpty [a, b, c] =
      if a ≠ "" then some a
      else if b ≠ "" then some b
      else if c ≠ "" then some c
      else none := by
  by_cases ha : a = "" <;> by_cases hb : b = "" <;> by_cases hc : c = "" <;>
    simp [firstNonEmpty, ha, hb, hc]

theorem kotlinFallbackHost_eq (tailnetDns lanHost : Option String)
    (host : String) :
    kotlinFallbackHost tailnetDns lanHost host =
      if trimWs (tailnetDns.getD "") ≠ "" then trimWs (tailnetDns.getD "")
      else if trimWs (lanHost.getD "") ≠ "" then trimWs (lanHost.getD "")
      else trimWs host := by
  cases tailnetDns <;> cases lanHost <;>
    simp only [kotlinFallbackHost, Option.map_some, Option.map_none,
      Option.getD_some, Option.getD_none, Option.some_bind, Option.none_bind] <;>
    split_ifs <;> simp_all [trimWs, trimChars]

theorem canvas_resolution_refines (raw : Option String) (ep : BridgeEndpoint) :
    normalizeCanvasHostUrl raw ep = canvasHostResolutionSpec raw ep := by
  obtain ⟨h, p, lan, tail, cport⟩ := ep
  simp only [normalizeCanvasHostUrl, canvasHostResolutionSpec,
    firstNonEmpty_three, kotlinFallbackHost_eq]
  by_cases t1 : trimWs (tail.getD "") = "" <;>
    by_cases t2 : trimWs (lan.getD "") = "" <;>
    by_cases t3 : trimWs h = "" <;>
    simp [t1, t2, t3]

/-- C1 (corrected): canvas host resolution uses a non-empty, non-loopback
advertised URL verbatim; otherwise it builds scheme://fallbackHost:port with
the fallback host the first non-empty of tailnet DNS, LAN host, raw connect
host, the port the explicit canvasPort, else the advertised port when
positive, else 18793, and the advertised scheme or http. Concrete cases:
"http://10.0.0.5:18793" verbatim; advertised "" with tailnet node1.ts.net and
canvasPort 18793 gives "http://node1.ts.net:18793"; advertised
"http://127.0.0.1:9000" with host 203.0.113.9 and no tailnet/LAN/canvasPort
gives "http://203.0.113.9:9000" (the advertised port is kept). -/
theorem c1_canvas_host_resolution :
    (∀ raw ep, normalizeCanvasHostUrl raw ep = canvasHostResolutionSpec raw ep)
    ∧ normalizeCanvasHostUrl (some "http://10.0.0.5:18793")
        ⟨"203.0.113.9", 4040, none, none, none⟩ = some "http://10.0.0.5:18793"
    ∧ normalizeCanvasHostUrl (some "")
        ⟨"203.0.113.9", 4040, none, some "node1.ts.net", some 18793⟩
        = some "http://node1.ts.net:18793"
    ∧ normalizeCanvasHostUrl (some "http://127.0.0.1:9000")
        ⟨"203.0.113.9", 4040, none, none, none⟩
        = some "http://203.0.113.9:9000" :=
  ⟨canvas_resolution_refines, by decide, by decide, by decide⟩

/-- C1 counterexample: for advertised "http://127.0.0.1:9000" and endpoint
host 203.0.113.9 with no tailnet DNS, LAN host or canvasPort, the claim
predicts "http://203.0.113.9:18793", but the code keeps the advertised
port and yields "http://203.0.113.9:9000". -/
theorem c1_counterexample :
    normalizeCanvasHostUrl (some "http://127.0.0.1:9000")
      ⟨"203.0.113.9", 4040, none, none, none⟩ = some "http://203.0.113.9:9000"
    ∧ normalizeCanvasHostUrl (some "http://127.0.0.1:9000")
      ⟨"203.0.113.9", 4040, none, none, none⟩ ≠ some "http://203.0.113.9:18793" :=
  ⟨by decide, by decide⟩

theorem sleepMs_mono (n : Nat) : sleepMs n ≤ sleepMs (n + 1) := by
  unfold sleepMs
  refine min_le_min (le_refl 8000) ?_
  calc 350 * 17 ^ n / 10 ^ n
      = 10 * (350 * 17 ^ n) / (10 * 10 ^ n) := by
        rw [Nat.mul_div_mul_left _ _ (by norm_num)]
    _ ≤ 17 * (350 * 17 ^ n) / (10 * 10 ^ n) :=
        Nat.div_le_div_right (Nat.mul_le_mul_right _ (by norm_num))
    _ = 350 * 17 ^ (n + 1) / 10 ^ (n + 1) := by
        rw [show 17 * (350 * 17 ^ n) = 350 * 17 ^ (n + 1) by ring,
          show 10 * 10 ^ n = 10 ^ (n + 1) by ring]

theorem runOutcomes_replicate_err (e : String) :
    ∀ (n a : Nat), runOutcomes a (List.replicate n (Except.error e)) =
      (a + n, (List.range n).map (fun k => some (sleepMs (a + k + 1))))
  | 0, a => by simp [runOutcomes]
  | n + 1, a => by
    simp only [List.replicate_succ, runOutcomes, runLoopStep,
      runOutcomes_replicate_err e n (a + 1), List.range_succ_eq_map,
      List.map_cons, List.map_map, Function.comp]
    rw [Prod.mk.injEq]
    refine ⟨by omega, ?_⟩
    rw [Nat.add_zero]
    congr 1
    apply List.map_congr_left
    intro k _
    simp only [Function.comp_apply, Nat.succ_eq_add_one]
    rw [show a + 1 + k + 1 = a + (k + 1) + 1 by omega]

/-- Endpoint fixture for concrete runs. -/
def exEndpoint : BridgeEndpoint := ⟨"203.0.113.9", 18790, none, none, none⟩

/-- Hello fixture for concrete runs. -/
def exHello : Hello := { nodeId := "n1" }

/-- A hello-ok first frame advertising a server name and canvas host URL. -/
def helloOkLine : Line :=
  .wellFormed (.obj [("type", .str "hello-ok"), ("serverName", .str "gw"),
    ("canvasHostUrl", .str "http://10.0.0.5:18793")])

/-- A trivial injected invoke handler. -/
def noHandler : InvokeRequest → HandlerOutcome :=
  fun _ => .ok (InvokeResult.okRes none)

/-- C4 (corrected): starting from a fresh counter, n consecutive failed
attempts leave the counter at n and sleep exactly
min(8000, floor(350 * 1.7 ^ k)) ms after the k-th failure (the Long
truncation of the Double product is written in exact arithmetic); the
delays are non-decreasing; a cleanly returning attempt resets the counter
to zero and sleeps nothing, and any failed attempt increments the counter.
-/
theorem c4_backoff_schedule (n a : Nat) (e : String) :
    runOutcomes 0 (List.replicate n (Except.error e)) =
      (n, (List.range n).map (fun k => some (sleepMs (k + 1))))
    ∧ sleepMs n = min 8000 (350 * 17 ^ n / 10 ^ n)
    ∧ sleepMs n ≤ sleepMs (n + 1)
    ∧ runLoopStep a (Except.ok ()) = (0, none)
    ∧ runLoopStep a (Except.error e) = (a + 1, some (sleepMs (a + 1))) := by
  refine ⟨?_, rfl, sleepMs_mono n, rfl, rfl⟩
  have h := runOutcomes_replicate_err e n 0
  simpa using h

/-- C4 counterexample: a connection attempt that reaches Connected (the
hello-ok callback fired) and then dies on a malformed line is a thrown
connectOnce; with the counter at 2 the loop moves it to 3 and sleeps
sleepMs 3 = 1719 ms, whereas the claim predicts a reset to zero on the
successful Connected transition (and hence a next delay of sleepMs 1 =
595 ms). -/
theorem c4_counterexample :
    (connectOnce noHandler exEndpoint exHello (some "203.0.113.9:18790")
        (some helloOkLine) [.recv (.malformed "not-json")]
        initSessState).1.connectedCalls = [("gw", some "203.0.113.9:18790")]
    ∧ (connectOnce noHandler exEndpoint exHello (some "203.0.113.9:18790")
        (some helloOkLine) [.recv (.malformed "not-json")]
        initSessState).2 = Except.error "malformed JSON line"
    ∧ runLoopStep 2 (Except.error "malformed JSON line") = (3, some 1719)
    ∧ (3 : Nat) ≠ 0 ∧ (1719 : Nat) ≠ 595 ∧ sleepMs 1 = 595 :=
  ⟨by decide, rfl, by decide, by decide, by decide, by decide⟩

theorem sessStep_canvas (onInvoke : InvokeRequest → HandlerOutcome)
    (s : SessState) (st : SessStep) :
    (sessStep onInvoke s st).1.canvasHostUrl = s.canvasHostUrl := by
  rcases st with l | ⟨id, m, p⟩
  · rcases l with j | r
    · simp only [sessStep]
      split
      · rfl
      · split <;> try rfl
        · split <;> rfl
        · split
          · rfl
          · simp only [completeRes]
            split <;> rfl
        · split
          · rfl
          · split <;> rfl
    · rfl
  · rfl

theorem runSteps_canvas (onInvoke : InvokeRequest → HandlerOutcome) :
    ∀ (steps : List SessStep) (s : SessState),
    (runSteps onInvoke s steps).1.canvasHostUrl = s.canvasHostUrl
  | [], s => rfl
  | st :: rest, s => by
    unfold runSteps
    cases h : sessStep onInvoke s st with
    | mk s2 e =>
      have hc : s2.canvasHostUrl = s.canvasHostUrl := by
        have := sessStep_canvas onInvoke s st
        rw [h] at this
        exact this
      cases e with
      | some e0 => simpa using hc
      | none => simpa [runSteps_canvas onInvoke rest s2] using hc

theorem teardown_canvas (s : SessState) :
    (teardown s).canvasHostUrl = s.canvasHostUrl := rfl

theorem sessStep_table (onInvoke : InvokeRequest → HandlerOutcome)
    (s : SessState) (st : SessStep) :
    ((sessStep onInvoke s st).1.resolved = s.resolved
      ∨ ∃ id ok p err, id ∈ s.pending ∧
          (sessStep onInvoke s st).1.resolved =
            (id, RpcOutcome.response ⟨id, ok, p, err⟩) :: s.resolved)
    ∧ (∀ id0, id0 ∈ s.pending →
        id0 ∈ (sessStep onInvoke s st).1.pending
        ∨ ∃ o, (id0, o) ∈ (sessStep onInvoke s st).1.resolved) := by
  rcases st with l | ⟨id, m, p⟩
  · rcases l with j | r
    · simp only [sessStep]
      split
      · exact ⟨Or.inl rfl, fun id0 h => Or.inl h⟩
      · split
        · split
          · exact ⟨Or.inl rfl, fun id0 h => Or.inl h⟩
          · exact ⟨Or.inl rfl, fun id0 h => Or.inl h⟩
        · exact ⟨Or.inl rfl, fun id0 h => Or.inl h⟩
        · split
          · exact ⟨Or.inl rfl, fun id0 h => Or.inl h⟩
          · rename_i frame hid0 id hid
            simp only [completeRes]
            split
            · rename_i hmem
              refine ⟨Or.inr ⟨id, _, _, _, hmem, rfl⟩, fun id0 h0 => ?_⟩
              by_cases he : id0 = id
              · subst he
                exact Or.inr ⟨_, List.mem_cons_self _ _⟩
              · exact Or.inl ((List.mem_erase_of_ne he).mpr h0)
            · exact ⟨Or.inl rfl, fun id0 h => Or.inl h⟩
        · split
          · exact ⟨Or.inl rfl, fun id0 h => Or.inl h⟩
          · split <;> exact ⟨Or.inl rfl, fun id0 h => Or.inl h⟩
        · exact ⟨Or.inl rfl, fun id0 h => Or.inl h⟩
        · exact ⟨Or.inl rfl, fun id0 h => Or.inl h⟩
    · exact ⟨Or.inl rfl, fun id0 h => Or.inl h⟩
  · exact ⟨Or.inl rfl, fun id0 h => Or.inl (List.mem_cons_of_mem _ h)⟩

theorem sessStep_resolved_mono (onInvoke : InvokeRequest → HandlerOutcome)
    (s : SessState) (st : SessStep) (p0 : String × RpcOutcome)
    (h : p0 ∈ s.resolved) : p0 ∈ (sessStep onInvoke s st).1.resolved := by
  rcases (sessStep_table onInvoke s st).1 with heq | ⟨id, ok, p, err, _, heq⟩
  · rw [heq]; exact h
  · rw [heq]; exact List.mem_cons_of_mem _ h

theorem runSteps_table (onInvoke : InvokeRequest → HandlerOutcome) :
    ∀ (steps : List SessStep) (s : SessState),
    (∀ id0, id0 ∈ s.pending →
      id0 ∈ (runSteps onInvoke s steps).1.pending
      ∨ ∃ o, (id0, o) ∈ (runSteps onInvoke s steps).1.resolved)
    ∧ (∀ p0, p0 ∈ s.resolved → p0 ∈ (runSteps onInvoke s steps).1.resolved)
  | [], s => ⟨fun id0 h => Or.inl h, fun p0 h => h⟩
  | st :: rest, s => by
    unfold runSteps
    cases hst : sessStep onInvoke s st with
    | mk s2 e =>
      have htab := sessStep_table onInvoke s st
      have hmono := sessStep_resolved_mono onInvoke s st
      rw [hst] at htab hmono
      cases e with
      | some e0 =>
        exact ⟨fun id0 h => htab.2 id0 h, fun p0 h => hmono p0 h⟩
      | none =>
        have ih := runSteps_table onInvoke rest s2
        refine ⟨fun id0 h => ?_, fun p0 h => ih.2 p0 (hmono p0 h)⟩
        rcases htab.2 id0 h with h2 | ⟨o, h2⟩
        · exact ih.1 id0 h2
        · exact Or.inr ⟨o, ih.2 _ h2⟩

/-- Every resolution ever delivered to a response waiter carries the id of
the waiter itself. -/
def GoodResolved (s : SessState) : Prop :=
  ∀ i r, (i, RpcOutcome.response r) ∈ s.resolved → r.id = i

theorem sessStep_good (onInvoke : InvokeRequest → HandlerOutcome)
    (s : SessState) (st : SessStep) (hg : GoodResolved s) :
    GoodResolved (sessStep onInvoke s st).1 := by
  intro i r hmem
  rcases (sessStep_table onInvoke s st).1 with heq | ⟨id, ok, p, err, _, heq⟩
  · rw [heq] at hmem; exact hg _ _ hmem
  · rw [heq] at hmem
    rcases List.mem_cons.mp hmem with h | h
    · have h1 : i = id ∧ RpcOutcome.response r =
          RpcOutcome.response ⟨id, ok, p, err⟩ := by
        exact Prod.mk.injEq .. ▸ h
      obtain ⟨h1, h2⟩ := h1
      cases h2
      simp [h1]
    · exact hg _ _ h

theorem runSteps_good (onInvoke : InvokeRequest → HandlerOutcome) :
    ∀ (steps : List SessStep) (s : SessState), GoodResolved s →
    GoodResolved (runSteps onInvoke s steps).1
  | [], _, hg => hg
  | st :: rest, s, hg => by
    unfold runSteps
    cases hst : sessStep onInvoke s st with
    | mk s2 e =>
      have h2 : GoodResolved s2 := by
        have := sessStep_good onInvoke s st hg
        rw [hst] at this
        exact this
      cases e with
      | some e0 => exact h2
      | none => exact runSteps_good onInvoke rest s2 h2

theorem teardown_good (s : SessState) (hg : GoodResolved s) :
    GoodResolved (teardown s) := by
  intro i r hmem
  rcases List.mem_append.mp hmem with h | h
  · obtain ⟨x, _, hx⟩ := List.mem_map.mp h
    cases hx
  · exact hg _ _ h

theorem teardown_pending (s : SessState) : (teardown s).pending = [] := rfl

theorem teardown_resolved (s : SessState) :
    (teardown s).resolved =
      s.pending.map (fun id => (id, RpcOutcome.cancelled)) ++ s.resolved := rfl

theorem teardown_cancels (s : SessState) (id : String) (h : id ∈ s.pending) :
    (id, RpcOutcome.cancelled) ∈ (teardown s).resolved := by
  rw [teardown_resolved]
  exact List.mem_append.mpr (Or.inl (List.mem_map.mpr ⟨id, h, rfl⟩))

theorem handshake_table (ep : BridgeEndpoint) (ra : Option String)
    (first : Option Line) (s : SessState) :
    (handshake ep ra first s).1.pending = s.pending
    ∧ (handshake ep ra first s).1.resolved = s.resolved := by
  rcases first with _ | l
  · exact ⟨rfl, rfl⟩
  · rcases l with j | r
    · simp only [handshake]
      split
      · exact ⟨rfl, rfl⟩
      · split <;> exact ⟨rfl, rfl⟩
    · exact ⟨rfl, rfl⟩

theorem handshake_eof (ep : BridgeEndpoint) (ra : Option String) (s : SessState) :
    handshake ep ra none s = (s, some "bridge closed connection") := rfl

theorem handshake_malformed (ep : BridgeEndpoint) (ra : Option String)
    (s : SessState) (raw : String) :
    handshake ep ra (some (.malformed raw)) s =
      (s, some "malformed JSON line") := rfl

theorem handshake_nonObject (ep : BridgeEndpoint) (ra : Option String)
    (s : SessState) (j : Json) (h : j.asObjectOrNull = none) :
    handshake ep ra (some (.wellFormed j)) s =
      (s, some "unexpected bridge response") := by
  simp [handshake, h]

theorem handshake_helloOk (ep : BridgeEndpoint) (ra : Option String)
    (s : SessState) (frame : List (String × Json))
    (h : asStringOrNull (Json.get frame "type") = some "hello-ok") :
    handshake ep ra (some (.wellFormed (.obj frame))) s =
      ({ s with
          canvasHostUrl := normalizeCanvasHostUrl (helloOkRawCanvas frame) ep
          connectedCalls :=
            s.connectedCalls ++ [(helloOkServerName frame, ra)] },
       none) := by
  simp [handshake, Json.asObjectOrNull, h]

theorem handshake_errorFrame (ep : BridgeEndpoint) (ra : Option String)
    (s : SessState) (frame : List (String × Json))
    (h : asStringOrNull (Json.get frame "type") = some "error") :
    handshake ep ra (some (.wellFormed (.obj frame))) s =
      (s, some (errorFrameMessage frame)) := by
  simp [handshake, Json.asObjectOrNull, h]

theorem handshake_otherFrame (ep : BridgeEndpoint) (ra : Option String)
    (s : SessState) (frame : List (String × Json)) (t : String)
    (h : asStringOrNull (Json.get frame "type") = some t)
    (h1 : t ≠ "hello-ok") (h2 : t ≠ "error") :
    handshake ep ra (some (.wellFormed (.obj frame))) s =
      (s, some "unexpected bridge response") := by
  simp only [handshake, Json.asObjectOrNull, h]
  split <;> simp_all

theorem handshake_noType (ep : BridgeEndpoint) (ra : Option String)
    (s : SessState) (frame : List (String × Json))
    (h : asStringOrNull (Json.get frame "type") = none) :
    handshake ep ra (some (.wellFormed (.obj frame))) s =
      (s, some "unexpected bridge response") := by
  simp only [handshake, Json.asObjectOrNull, h]

theorem handshake_err_state (ep : BridgeEndpoint) (ra : Option String)
    (first : Option Line) (s s2 : SessState) (e : String)
    (h : handshake ep ra first s = (s2, some e)) : s2 = s := by
  rcases first with _ | l
  · simp only [handshake_eof] at h
    exact (Prod.mk.injEq .. ▸ h).1.symm
  · rcases l with j | r
    · simp only [handshake] at h
      revert h
      split
      · intro h
        exact (Prod.mk.injEq .. ▸ h).1.symm
      · split <;> intro h
        · simp at h
        · exact (Prod.mk.injEq .. ▸ h).1.symm
        · exact (Prod.mk.injEq .. ▸ h).1.symm
    · simp only [handshake_malformed] at h
      exact (Prod.mk.injEq .. ▸ h).1.symm

theorem connectOnce_hs_err (onInvoke : InvokeRequest → HandlerOutcome)
    (ep : BridgeEndpoint) (hello : Hello) (ra : Option String)
    (first : Option Line) (steps : List SessStep) (s0 s2 : SessState)
    (e : String)
    (h : handshake ep ra first { s0 with sent := s0.sent ++ [helloFrame hello] }
      = (s2, some e)) :
    connectOnce onInvoke ep hello ra first steps s0 =
      (teardown s2, Except.error e) := by
  unfold connectOnce
  simp only [h]

theorem connectOnce_hs_ok (onInvoke : InvokeRequest → HandlerOutcome)
    (ep : BridgeEndpoint) (hello : Hello) (ra : Option String)
    (first : Option Line) (steps : List SessStep) (s0 s2 s3 : SessState)
    (r : LoopEnd)
    (h : handshake ep ra first { s0 with sent := s0.sent ++ [helloFrame hello] }
      = (s2, none))
    (hr : runSteps onInvoke s2 steps = (s3, r)) :
    connectOnce onInvoke ep hello ra first steps s0 =
      (teardown s3,
        match r with
        | .thrown m => Except.error m
        | _ => Except.ok ()) := by
  unfold connectOnce
  simp only [h, hr]
  cases r <;> rfl

theorem connectOnce_drained (onInvoke : InvokeRequest → HandlerOutcome)
    (ep : BridgeEndpoint) (hello : Hello) (ra : Option String)
    (first : Option Line) (steps : List SessStep) (s0 : SessState) :
    (connectOnce onInvoke ep hello ra first steps s0).1.pending = []
    ∧ (connectOnce onInvoke ep hello ra first steps s0).1.socketClosed = true
    ∧ (∀ id, id ∈ s0.pending →
        ∃ o, (id, o) ∈ (connectOnce onInvoke ep hello ra first steps s0).1.resolved) := by
  cases hh : handshake ep ra first
      { s0 with sent := s0.sent ++ [helloFrame hello] } with
  | mk s2 eo =>
    cases eo with
    | none =>
      cases hr : runSteps onInvoke s2 steps with
      | mk s3 r =>
        rw [connectOnce_hs_ok onInvoke ep hello ra first steps s0 s2 s3 r hh hr]
        refine ⟨teardown_pending s3, rfl, ?_⟩
        intro id hid
        have hs2 : s2.pending = s0.pending := by
          have hT := (handshake_table ep ra first
            { s0 with sent := s0.sent ++ [helloFrame hello] }).1
          rw [hh] at hT
          exact hT
        have h2 : id ∈ s2.pending := by rw [hs2]; exact hid
        have h3 := (runSteps_table onInvoke steps s2).1 id h2
        rw [hr] at h3
        rcases h3 with h3 | ⟨o, h3⟩
        · exact ⟨RpcOutcome.cancelled, teardown_cancels s3 id h3⟩
        · exact ⟨o, by rw [teardown_resolved]; exact List.mem_append_right _ h3⟩
    | some e =>
      rw [connectOnce_hs_err onInvoke ep hello ra first steps s0 s2 e hh]
      have hs2 := handshake_err_state ep ra first _ s2 e hh
      refine ⟨teardown_pending s2, rfl, ?_⟩
      intro id hid
      have h2 : id ∈ s2.pending := by rw [hs2]; exact hid
      exact ⟨RpcOutcome.cancelled, teardown_cancels s2 id h2⟩

theorem connectOnce_canvas (onInvoke : InvokeRequest → HandlerOutcome)
    (ep : BridgeEndpoint) (hello : Hello) (ra : Option String)
    (first : Option Line) (steps : List SessStep) (s0 s2 : SessState)
    (eo : Option String)
    (hh : handshake ep ra first { s0 with sent := s0.sent ++ [helloFrame hello] }
      = (s2, eo)) :
    (connectOnce onInvoke ep hello ra first steps s0).1.canvasHostUrl
      = s2.canvasHostUrl := by
  cases eo with
  | none =>
    cases hr : runSteps onInvoke s2 steps with
    | mk s3 r =>
      rw [connectOnce_hs_ok onInvoke ep hello ra first steps s0 s2 s3 r hh hr]
      have hc := runSteps_canvas onInvoke steps s2
      rw [hr] at hc
      exact hc
  | some e =>
    rw [connectOnce_hs_err onInvoke ep hello ra first steps s0 s2 e hh]
    exact teardown_canvas s2

theorem good_of_resolvedEq (s t : SessState) (h : s.resolved = t.resolved)
    (hg : GoodResolved t) : GoodResolved s := by
  intro i r hm
  exact hg i r (h ▸ hm)

theorem connectOnce_good (onInvoke : InvokeRequest → HandlerOutcome)
    (ep : BridgeEndpoint) (hello : Hello) (ra : Option String)
    (first : Option Line) (steps : List SessStep) (s0 : SessState)
    (hg : GoodResolved s0) :
    GoodResolved (connectOnce onInvoke ep hello ra first steps s0).1 := by
  have hg1 : GoodResolved { s0 with sent := s0.sent ++ [helloFrame hello] } := hg
  cases hh : handshake ep ra first
      { s0 with sent := s0.sent ++ [helloFrame hello] } with
  | mk s2 eo =>
    have hg2 : GoodResolved s2 := by
      have hT := (handshake_table ep ra first
        { s0 with sent := s0.sent ++ [helloFrame hello] }).2
      rw [hh] at hT
      exact good_of_resolvedEq _ _ hT hg1
    cases eo with
    | none =>
      cases hr : runSteps onInvoke s2 steps with
      | mk s3 r =>
        rw [connectOnce_hs_ok onInvoke ep hello ra first steps s0 s2 s3 r hh hr]
        have hg3 := runSteps_good onInvoke steps s2 hg2
        rw [hr] at hg3
        exact teardown_good s3 hg3
    | some e =>
      rw [connectOnce_hs_err onInvoke ep hello ra first steps s0 s2 e hh]
      exact teardown_good s2 hg2

/-- C5 (corrected): the session canvasHostUrl is set exactly by a processed
hello-ok frame (the read loop never changes it); on every exit of a
connection attempt the correlation table is drained and the socket closed;
explicit disconnect() clears canvasHostUrl and emits the Offline status; a
failed attempt emits the human-readable bridge-error status, but
canvasHostUrl keeps its previous value on that path (it is only replaced by
the next hello-ok or cleared by disconnect()). -/
theorem c5_canvas_lifecycle :
    (∀ (onInvoke : InvokeRequest → HandlerOutcome) (ep : BridgeEndpoint)
      (hello : Hello) (ra : Option String) (first : Option Line)
      (steps : List SessStep) (s0 : SessState),
      ((connectOnce onInvoke ep hello ra first steps s0).1.pending = []
        ∧ (connectOnce onInvoke ep hello ra first steps s0).1.socketClosed = true)
      ∧ (∀ s2 e,
          handshake ep ra first
            { s0 with sent := s0.sent ++ [helloFrame hello] } = (s2, some e) →
          (connectOnce onInvoke ep hello ra first steps s0).1.canvasHostUrl
            = s0.canvasHostUrl)
      ∧ (∀ frame,
          first = some (.wellFormed (.obj frame)) →
          asStringOrNull (Json.get frame "type") = some "hello-ok" →
          (connectOnce onInvoke ep hello ra first steps s0).1.canvasHostUrl
            = normalizeCanvasHostUrl (helloOkRawCanvas frame) ep))
    ∧ (∀ s : BridgeTop, disconnectSession s = (⟨none, none⟩, "Offline"))
    ∧ (∀ e, failureStatus e = "Bridge error: " ++ e) := by
  refine ⟨fun onInvoke ep hello ra first steps s0 => ⟨?_, ?_, ?_⟩,
    fun s => rfl, fun e => rfl⟩
  · exact ⟨(connectOnce_drained onInvoke ep hello ra first steps s0).1,
      (connectOnce_drained onInvoke ep hello ra first steps s0).2.1⟩
  · intro s2 e hh
    have hc := connectOnce_canvas onInvoke ep hello ra first steps s0 s2
      (some e) hh
    rw [hc, handshake_err_state ep ra first _ s2 e hh]
  · intro frame hfirst htype
    subst hfirst
    have hh := handshake_helloOk ep ra
      { s0 with sent := s0.sent ++ [helloFrame hello] } frame htype
    have hc := connectOnce_canvas onInvoke ep hello ra _ steps s0 _ none hh
    rw [hc]

/-- C5 counterexample: a connection that reached Connected with an advertised
canvas URL and then failed (a malformed line threw out of the read loop)
leaves canvasHostUrl set, not cleared; the claim requires it cleared on
every failure entering reconnection. -/
theorem c5_counterexample :
    (connectOnce noHandler exEndpoint exHello (some "203.0.113.9:18790")
        (some helloOkLine) [.recv (.malformed "not-json")]
        initSessState).2 = Except.error "malformed JSON line"
    ∧ (connectOnce noHandler exEndpoint exHello (some "203.0.113.9:18790")
        (some helloOkLine) [.recv (.malformed "not-json")]
        initSessState).1.canvasHostUrl = some "http://10.0.0.5:18793"
    ∧ some "http://10.0.0.5:18793" ≠ (none : Option String) :=
  ⟨rfl, by decide, by decide⟩

/-- C5 witness: the general theorem applied to a concrete hello-ok run and a
concrete failing handshake. -/
theorem c5_witness :
    (connectOnce noHandler exEndpoint exHello none (some helloOkLine) []
       initSessState).1.canvasHostUrl
      = normalizeCanvasHostUrl
          (helloOkRawCanvas [("type", .str "hello-ok"), ("serverName", .str "gw"),
            ("canvasHostUrl", .str "http://10.0.0.5:18793")]) exEndpoint
    ∧ (connectOnce noHandler exEndpoint exHello none none [] initSessState).1.canvasHostUrl
      = initSessState.canvasHostUrl := by
  constructor
  · exact (c5_canvas_lifecycle.1 noHandler exEndpoint exHello none
      (some helloOkLine) [] initSessState).2.2
      [("type", .str "hello-ok"), ("serverName", .str "gw"),
        ("canvasHostUrl", .str "http://10.0.0.5:18793")] rfl rfl
  · exact (c5_canvas_lifecycle.1 noHandler exEndpoint exHello none none []
      initSessState).2.1 _ "bridge closed connection" rfl

/-- C6 (confirmed): on every exit of a connection attempt the correlation
table ends empty and every request pending at entry is resolved (completed
during the loop or cancelled at teardown), so a request() caller observes a
failure rather than a hang; the teardown itself resolves each of the K
then-pending waiters with the cancellation failure and empties the table. -/
theorem c6_disconnect_cancellation :
    (∀ (onInvoke : InvokeRequest → HandlerOutcome) (ep : BridgeEndpoint)
      (hello : Hello) (ra : Option String) (first : Option Line)
      (steps : List SessStep) (s0 : SessState),
      (connectOnce onInvoke ep hello ra first steps s0).1.pending = []
      ∧ (∀ id, id ∈ s0.pending →
          ∃ o, (id, o) ∈ (connectOnce onInvoke ep hello ra first steps s0).1.resolved))
    ∧ (∀ s : SessState,
        (teardown s).pending = []
        ∧ (∀ id, id ∈ s.pending →
            (id, RpcOutcome.cancelled) ∈ (teardown s).resolved)
        ∧ (teardown s).resolved.length
            = s.pending.length + s.resolved.length) := by
  refine ⟨fun onInvoke ep hello ra first steps s0 =>
    ⟨(connectOnce_drained onInvoke ep hello ra first steps s0).1,
     (connectOnce_drained onInvoke ep hello ra first steps s0).2.2⟩,
    fun s => ⟨teardown_pending s, fun id h => teardown_cancels s id h, ?_⟩⟩
  rw [teardown_resolved]
  simp

/-- C6 witness: a run with two requests pending when the stream dies: both
are resolved (cancelled) and the table is empty. -/
theorem c6_witness :
    (connectOnce noHandler exEndpoint exHello none (some helloOkLine)
        [.localRequest "a" "m" none, .localRequest "b" "m" none,
         .recv (.malformed "x")] initSessState).1.pending = []
    ∧ (∃ o, ("a", o) ∈ (connectOnce noHandler exEndpoint exHello none
        (some helloOkLine)
        [.localRequest "a" "m" none, .localRequest "b" "m" none,
         .recv (.malformed "x")] initSessState).1.resolved)
    ∧ (teardown { initSessState with pending := ["a", "b"] }).pending = []
    ∧ ("a", RpcOutcome.cancelled)
        ∈ (teardown { initSessState with pending := ["a", "b"] }).resolved := by
  refine ⟨(c6_disconnect_cancellation.1 noHandler exEndpoint exHello none
      (some helloOkLine) _ initSessState).1, ⟨RpcOutcome.cancelled, by decide⟩,
    ((c6_disconnect_cancellation.2 { initSessState with pending := ["a", "b"] }).1),
    ((c6_disconnect_cancellation.2 { initSessState with pending := ["a", "b"] }).2.1
      "a" (by decide))⟩

/-- C7 (confirmed): responses are correlated by id. A res frame whose id is
not outstanding is a no-op on the table; a res frame for an outstanding id
removes exactly that entry and resolves it with a response carrying that
same id and the frame payload; consequently, across any run (any completion
order, reverse included) every waiter resolved with a response got the
response carrying its own id, never one for a different id. -/
theorem c7_correlation :
    (∀ (onInvoke : InvokeRequest → HandlerOutcome) (ep : BridgeEndpoint)
      (hello : Hello) (ra : Option String) (first : Option Line)
      (steps : List SessStep) (s0 : SessState),
      GoodResolved s0 →
      GoodResolved (connectOnce onInvoke ep hello ra first steps s0).1)
    ∧ (∀ (s : SessState) id resp, id ∉ s.pending → completeRes s id resp = s)
    ∧ (∀ (s : SessState) id resp, id ∈ s.pending →
        completeRes s id resp =
          { s with pending := s.pending.erase id,
                   resolved := (id, RpcOutcome.response resp) :: s.resolved })
    ∧ (∀ (onInvoke : InvokeRequest → HandlerOutcome) (s : SessState)
        (frame : List (String × Json)) id,
        asStringOrNull (Json.get frame "type") = some "res" →
        asStringOrNull (Json.get frame "id") = some id →
        sessStep onInvoke s (.recv (.wellFormed (.obj frame))) =
          (completeRes s id
            ⟨id, (asBooleanOrNull (Json.get frame "ok")).getD false,
             asStringOrNull (Json.get frame "payloadJSON"),
             parseErrorShape (Json.get frame "error")⟩, none)) := by
  refine ⟨connectOnce_good, fun s id resp h => ?_, fun s id resp h => ?_,
    fun onInvoke s frame id h1 h2 => ?_⟩
  · simp [completeRes, h]
  · simp [completeRes, h]
  · simp [sessStep, Json.asObjectOrNull, h1, h2]

/-- C7 witness: two requests completed in reverse order of registration each
resolve to the response carrying their own id; a res frame with an unknown id
leaves the table untouched. -/
theorem c7_witness :
    GoodResolved (connectOnce noHandler exEndpoint exHello none
      (some helloOkLine)
      [.localRequest "a" "m" none, .localRequest "b" "m" none,
       .recv (.wellFormed (.obj [("type", .str "res"), ("id", .str "b"),
         ("ok", .bool true)])),
       .recv (.wellFormed (.obj [("type", .str "res"), ("id", .str "a"),
         ("ok", .bool true)]))] initSessState).1
    ∧ completeRes initSessState "ghost" ⟨"ghost", true, none, none⟩
        = initSessState := by
  constructor
  · exact c7_correlation.1 noHandler exEndpoint exHello none (some helloOkLine)
      _ initSessState (fun i r h => by cases h)
  · exact c7_correlation.2.1 initSessState "ghost" ⟨"ghost", true, none, none⟩
      (by decide)

/-- C8 (confirmed): after sending hello the session awaits exactly one reply
frame. A hello-ok first frame connects, capturing the advertised server name
(default Bridge), the remote address and the normalized canvas host URL; an
error first frame throws code: message; EOF before a reply, a line the JSON
parser rejects, a non-object line or any other frame type throws too, and a
thrown handshake makes the whole connectOnce attempt fail with that error
(the supervisor then enters reconnection). -/
theorem c8_handshake_contract :
    (∀ (ep : BridgeEndpoint) (ra : Option String) (s : SessState),
      handshake ep ra none s = (s, some "bridge closed connection"))
    ∧ (∀ ep ra (s : SessState) raw,
        handshake ep ra (some (.malformed raw)) s =
          (s, some "malformed JSON line"))
    ∧ (∀ ep ra (s : SessState) (j : Json), j.asObjectOrNull = none →
        handshake ep ra (some (.wellFormed j)) s =
          (s, some "unexpected bridge response"))
    ∧ (∀ ep ra (s : SessState) frame,
        asStringOrNull (Json.get frame "type") = some "hello-ok" →
        handshake ep ra (some (.wellFormed (.obj frame))) s =
          ({ s with
              canvasHostUrl :=
                normalizeCanvasHostUrl (helloOkRawCanvas frame) ep
              connectedCalls :=
                s.connectedCalls ++ [(helloOkServerName frame, ra)] },
           none))
    ∧ (∀ ep ra (s : SessState) frame,
        asStringOrNull (Json.get frame "type") = some "error" →
        handshake ep ra (some (.wellFormed (.obj frame))) s =
          (s, some (errorFrameMessage frame)))
    ∧ (∀ ep ra (s : SessState) frame t,
        asStringOrNull (Json.get frame "type") = some t →
        t ≠ "hello-ok" → t ≠ "error" →
        handshake ep ra (some (.wellFormed (.obj frame))) s =
          (s, some "unexpected bridge response"))
    ∧ (∀ ep ra (s : SessState) frame,
        asStringOrNull (Json.get frame "type") = none →
        handshake ep ra (some (.wellFormed (.obj frame))) s =
          (s, some "unexpected bridge response"))
    ∧ (∀ (onInvoke : InvokeRequest → HandlerOutcome) ep (hello : Hello) ra
        (first : Option Line) steps (s0 s2 : SessState) e,
        handshake ep ra first
          { s0 with sent := s0.sent ++ [helloFrame hello] } = (s2, some e) →
        connectOnce onInvoke ep hello ra first steps s0 =
          (teardown s2, Except.error e)) :=
  ⟨handshake_eof, handshake_malformed, handshake_nonObject, handshake_helloOk,
   handshake_errorFrame, handshake_otherFrame, handshake_noType,
   connectOnce_hs_err⟩

/-- C8 witness: the contract applied to a concrete hello-ok frame and a
concrete error frame. -/
theorem c8_witness :
    handshake exEndpoint (some "1.2.3.4:5")
      (some (.wellFormed (.obj [("type", .str "hello-ok"),
        ("serverName", .str "gw")]))) initSessState =
      ({ initSessState with
          canvasHostUrl :=
            normalizeCanvasHostUrl
              (helloOkRawCanvas [("type", .str "hello-ok"),
                ("serverName", .str "gw")]) exEndpoint
          connectedCalls := [("gw", some "1.2.3.4:5")] }
        , none)
    ∧ handshake exEndpoint none
        (some (.wellFormed (.obj [("type", .str "error"),
          ("code", .str "NOT_AUTHORIZED"), ("message", .str "bad token")])))
        initSessState =
        (initSessState, some (errorFrameMessage [("type", .str "error"),
          ("code", .str "NOT_AUTHORIZED"), ("message", .str "bad token")]))
    ∧ handshake exEndpoint none
        (some (.wellFormed (.obj [("type", .str "event")]))) initSessState =
        (initSessState, some "unexpected bridge response") := by
  refine ⟨?_, ?_, ?_⟩
  · have h := c8_handshake_contract.2.2.2.1 exEndpoint (some "1.2.3.4:5")
      initSessState [("type", .str "hello-ok"), ("serverName", .str "gw")] rfl
    simpa using h
  · exact c8_handshake_contract.2.2.2.2.1 exEndpoint none initSessState
      [("type", .str "error"), ("code", .str "NOT_AUTHORIZED"),
        ("message", .str "bad token")] rfl
  · exact c8_handshake_contract.2.2.2.2.2.1 exEndpoint none initSessState
      [("type", .str "event")] "event" rfl (by decide) (by decide)

/-- C3 (code bug): after a successful handshake, a well-formed non-object
line and an object with an unrecognized type are dropped and the loop keeps
running; but a line the JSON parser rejects makes parseToJsonElement throw,
which terminates the read loop and fails the whole attempt, so the event
line after it is never processed. The same four lines without the malformed
one run to a clean EOF with the event delivered. -/
theorem c3_malformed_line_fatal :
    ((connectOnce noHandler exEndpoint exHello none (some helloOkLine)
        [.recv (.wellFormed (.str "not-an-object")),
         .recv (.wellFormed (.obj [("type", .str "mystery-frame")])),
         .recv (.malformed "oops"),
         .recv (.wellFormed (.obj [("type", .str "event"),
           ("event", .str "late.event")]))]
        initSessState).2 = Except.error "malformed JSON line"
      ∧ (connectOnce noHandler exEndpoint exHello none (some helloOkLine)
        [.recv (.wellFormed (.str "not-an-object")),
         .recv (.wellFormed (.obj [("type", .str "mystery-frame")])),
         .recv (.malformed "oops"),
         .recv (.wellFormed (.obj [("type", .str "event"),
           ("event", .str "late.event")]))]
        initSessState).1.events = [])
    ∧ ((connectOnce noHandler exEndpoint exHello none (some helloOkLine)
        [.recv (.wellFormed (.str "not-an-object")),
         .recv (.wellFormed (.obj [("type", .str "mystery-frame")])),
         .recv (.wellFormed (.obj [("type", .str "event"),
           ("event", .str "late.event")]))]
        initSessState).2 = Except.ok ()
      ∧ (connectOnce noHandler exEndpoint exHello none (some helloOkLine)
        [.recv (.wellFormed (.str "not-an-object")),
         .recv (.wellFormed (.obj [("type", .str "mystery-frame")])),
         .recv (.wellFormed (.obj [("type", .str "event"),
           ("event", .str "late.event")]))]
        initSessState).1.events = [("late.event", none)]) :=
  ⟨⟨rfl, by decide⟩, ⟨rfl, by decide⟩⟩

/-- C2 (corrected): with the camera capability disabled, camera.snap and
camera.clip short-circuit before params are decoded and without running any
capture body, returning ok false; but the wire error code is UNAVAILABLE and
the CAMERA_DISABLED tag travels as the message prefix, not as error.code.
On iOS the background gate fires first, so the camera gate answers when the
app is foregrounded. -/
theorem c2_camera_gate :
    (∀ (d : MacDeps) (req : BridgeInvokeRequest),
      req.command = "camera.snap" ∨ req.command = "camera.clip" →
      d.cameraEnabled = false →
      macHandleInvoke d req =
        (⟨req.id, false, none, some ⟨.unavailable,
          "CAMERA_DISABLED: enable Camera in Settings"⟩⟩, []))
    ∧ (∀ (d : IosDeps) (req : BridgeInvokeRequest),
      strStartsWith req.command "camera." = true →
      d.isBackgrounded = false → d.cameraEnabled = false →
      iosHandleInvoke d req =
        (⟨req.id, false, none, some ⟨.unavailable,
          "CAMERA_DISABLED: enable Camera in iOS Settings → Camera → Allow Camera"⟩⟩,
         []))
    ∧ ClawdisNodeErrorCode.unavailable.wire = "UNAVAILABLE" := by
  refine ⟨fun d req hcmd hcam => ?_, fun d req hstart hb hcam => ?_, rfl⟩
  · rcases hcmd with h | h <;>
      · simp only [macHandleInvoke, errorResponse]
        rw [h, hcam]
        rfl
  · simp [iosHandleInvoke, errorResponse, hstart, hb, hcam]

/-- C2 counterexample: a concrete camera.snap invoke with the camera disabled
returns error code UNAVAILABLE (with the CAMERA_DISABLED message prefix), not
error code CAMERA_DISABLED as the claim states. -/
theorem c2_counterexample :
    (macHandleInvoke
      ⟨true, false, fun _ => Except.ok ⟨"i1", true, none, none⟩,
        fun _ => Except.ok ⟨"i1", true, none, none⟩,
        fun _ => Except.ok ⟨"i1", true, none, none⟩⟩
      ⟨"i1", "camera.snap", none⟩).1.error.map (fun e => e.code.wire)
      = some "UNAVAILABLE"
    ∧ some "UNAVAILABLE" ≠ some "CAMERA_DISABLED"
    ∧ (macHandleInvoke
      ⟨true, false, fun _ => Except.ok ⟨"i1", true, none, none⟩,
        fun _ => Except.ok ⟨"i1", true, none, none⟩,
        fun _ => Except.ok ⟨"i1", true, none, none⟩⟩
      ⟨"i1", "camera.snap", none⟩).2 = [] :=
  ⟨rfl, by decide, rfl⟩

/-- C2 witness: the gate theorem applied to concrete requests on both
platforms; the capture bodies are never invoked. -/
theorem c2_witness :
    macHandleInvoke
      ⟨true, false, fun _ => Except.ok ⟨"i2", true, none, none⟩,
        fun _ => Except.ok ⟨"i2", true, none, none⟩,
        fun _ => Except.ok ⟨"i2", true, none, none⟩⟩
      ⟨"i2", "camera.clip", some "anything"⟩ =
      (⟨"i2", false, none, some ⟨.unavailable,
        "CAMERA_DISABLED: enable Camera in Settings"⟩⟩, [])
    ∧ iosHandleInvoke
      ⟨false, false, fun _ => Except.ok ⟨"i3", true, none, none⟩,
        fun _ => Except.ok ⟨"i3", true, none, none⟩,
        fun _ => Except.ok ⟨"i3", true, none, none⟩⟩
      ⟨"i3", "camera.snap", none⟩ =
      (⟨"i3", false, none, some ⟨.unavailable,
        "CAMERA_DISABLED: enable Camera in iOS Settings → Camera → Allow Camera"⟩⟩,
       []) :=
  ⟨c2_camera_gate.1 _ _ (Or.inr rfl) rfl,
   c2_camera_gate.2.1 _ _ (by decide) rfl rfl⟩

/-- C9 (confirmed): canvas.snapshot applies a maximum width of 900 for PNG
and 1600 for JPEG when the maxWidth parameter is absent or non-positive,
defaults the JPEG quality to 0.9 when absent, always clamps the applied JPEG
quality into [0.05, 1.0], and defaults the format to JPEG. -/
theorem c9_snapshot_defaults :
    (∀ (params : Option ClawdisCanvasSnapshotParams)
        (fmt : ClawdisCanvasSnapshotFormat),
      (params.bind (·.maxWidth) = none ∨
        ∃ raw, params.bind (·.maxWidth) = some raw ∧ raw ≤ 0) →
      snapshotMaxWidth params fmt =
        (match fmt with | .png => 900 | .jpeg => 1600))
    ∧ (∀ params, params.bind (·.quality) = none →
        snapshotQuality params = 9 / 10)
    ∧ (∀ q : ℚ, 1 / 20 ≤ clampJpegQuality q ∧ clampJpegQuality q ≤ 1)
    ∧ snapshotFormat none = .jpeg := by
  refine ⟨?_, ?_, fun q => ⟨le_min (by norm_num) (le_max_left _ _),
    min_le_left _ _⟩, rfl⟩
  · intro params fmt h
    rcases h with h | ⟨raw, h, hle⟩
    · simp [snapshotMaxWidth, h]
    · unfold snapshotMaxWidth
      rw [h]
      simp [show ¬(raw > 0) from by omega]
  · intro params h
    simp [snapshotQuality, h]

/-- C9 witness: concrete defaults: absent params give a 1600 JPEG width and
0.9 quality; maxWidth -3 with PNG gives 900; quality 5 clamps into range. -/
theorem c9_witness :
    snapshotMaxWidth none .jpeg = 1600
    ∧ snapshotMaxWidth (some { maxWidth := some (-3) }) .png = 900
    ∧ snapshotQuality none = 9 / 10
    ∧ (1 / 20 ≤ clampJpegQuality 5 ∧ clampJpegQuality 5 ≤ 1) := by
  refine ⟨?_, ?_, c9_snapshot_defaults.2.1 none rfl,
    c9_snapshot_defaults.2.2.1 5⟩
  · have h := c9_snapshot_defaults.1 none .jpeg (Or.inl rfl)
    simpa using h
  · have h := c9_snapshot_defaults.1 (some { maxWidth := some (-3) }) .png
      (Or.inr ⟨-3, rfl, by norm_num⟩)
    simpa using h

theorem dropWhile_eq_self_of (p : Char → Bool) (l : List Char)
    (h : ∀ c ∈ l, p c = false) : l.dropWhile p = l := by
  cases l with
  | nil => rfl
  | cons a t => simp [List.dropWhile_cons, h a (List.mem_cons_self a t)]

theorem dropWhile_eq_nil_of (p : Char → Bool) :
    ∀ (l : List Char), (∀ c ∈ l, p c = true) → l.dropWhile p = []
  | [], _ => rfl
  | a :: t, h => by
    simp only [List.dropWhile_cons, h a (List.mem_cons_self a t), if_true]
    exact dropWhile_eq_nil_of p t (fun c hc => h c (List.mem_cons_of_mem a hc))

theorem takeWhile_middle (p : Char → Bool) (y : Char) (ys : List Char)
    (hy : p y = false) :
    ∀ (xs : List Char), (∀ x ∈ xs, p x = true) →
      (xs ++ y :: ys).takeWhile p = xs
  | [], _ => by simp [List.takeWhile_cons, hy]
  | x :: xs, hx => by
    simp only [List.cons_append, List.takeWhile_cons,
      hx x (List.mem_cons_self x xs), if_true]
    rw [takeWhile_middle p y ys hy xs
      (fun a ha => hx a (List.mem_cons_of_mem x ha))]

theorem dropWhile_middle (p : Char → Bool) (y : Char) (ys : List Char)
    (hy : p y = false) :
    ∀ (xs : List Char), (∀ x ∈ xs, p x = true) →
      (xs ++ y :: ys).dropWhile p = y :: ys
  | [], _ => by simp [List.dropWhile_cons, hy]
  | x :: xs, hx => by
    simp only [List.cons_append, List.dropWhile_cons,
      hx x (List.mem_cons_self x xs), if_true]
    exact dropWhile_middle p y ys hy xs
      (fun a ha => hx a (List.mem_cons_of_mem x ha))

theorem trimChars_of_noWs (l : List Char)
    (h : ∀ c ∈ l, c.isWhitespace = false) : trimChars l = l := by
  unfold trimChars
  rw [dropWhile_eq_self_of _ l h,
    dropWhile_eq_self_of _ l.reverse (fun c hc => h c (List.mem_reverse.mp hc)),
    List.reverse_reverse]

theorem upperUnderscore_not_ws (c : Char)
    (h : (c.isUpper || c = '_') = true) : c.isWhitespace = false := by
  cases hw : c.isWhitespace
  · rfl
  · exfalso
    have hd : ((c = ' ' ∨ c = '\t') ∨ c = '\x0d') ∨ c = '\n' := by
      simpa [Char.isWhitespace] using hw
    rcases hd with ((h1 | h1) | h1) | h1 <;> subst h1 <;>
      exact absurd h (by decide)

theorem code_trim (code : String)
    (hU : code.data.all (fun ch => ch.isUpper || ch = '_') = true) :
    trimWs code = code := by
  cases code with
  | mk l =>
    show (⟨trimChars l⟩ : String) = ⟨l⟩
    rw [trimChars_of_noWs l
      (fun c hc => upperUnderscore_not_ws c (List.all_eq_true.mp hU c hc))]

theorem effective_of_trimmed (m cn : String) (hm : trimWs m = m)
    (hne : m ≠ "") : effectiveThrowableMessage (some m) cn = m := by
  simp [effectiveThrowableMessage, hm, hne]

theorem data_append3 (code rest : String) :
    (code ++ ":" ++ rest).data = code.data ++ ':' :: rest.data := by
  rw [String.data_append, String.data_append]
  simp

theorem splitLimit2_middle (code rest : List Char)
    (h : ∀ x ∈ code, (decide (x ≠ ':')) = true) :
    splitLimit2 ':' (code ++ ':' :: rest) = (code, some rest) := by
  unfold splitLimit2 breakAtFirst
  rw [dropWhile_middle _ ':' rest (by decide) code h,
    takeWhile_middle _ ':' rest (by decide) code h]

/-- C10 (confirmed): a throwable escaping an invoke handler maps to an
invoke-res error as follows. An effective message (the trimmed message, or
the class simple name when the message is blank) of the form CODE:rest —
space after the colon allowed — with CODE non-empty and made of uppercase
letters and underscores gives error.code CODE and error.message the trimmed
rest (or the whole message when rest trims to empty). Otherwise the code is
UNAVAILABLE with the whole message: both when the message contains a colon
but its prefix is not a valid code (empty after trimming, or holding any
character that is neither an uppercase letter nor an underscore) and when it
contains no colon at all; a blank message falls back to the class name. The
read loop sends the invoke-res frame carrying exactly that error for the
frame id. -/
theorem c10_invoke_error_mapping :
    (∀ (code rest cn : String),
      code ≠ "" →
      code.data.all (fun ch => ch.isUpper || ch = '_') = true →
      trimWs (code ++ ":" ++ rest) = code ++ ":" ++ rest →
      invokeErrorFromThrowable (some (code ++ ":" ++ rest)) cn =
        InvokeResult.errorRes code
          (if trimWs rest = "" then code ++ ":" ++ rest else trimWs rest))
    ∧ (∀ (pre rest cn : String),
        ':' ∉ pre.data →
        ¬(trimWs pre ≠ "" ∧
          (trimWs pre).data.all (fun ch => ch.isUpper || ch = '_') = true) →
        trimWs (pre ++ ":" ++ rest) = pre ++ ":" ++ rest →
        invokeErrorFromThrowable (some (pre ++ ":" ++ rest)) cn =
          InvokeResult.errorRes "UNAVAILABLE" (pre ++ ":" ++ rest))
    ∧ (∀ (m cn : String), trimWs m = m → m ≠ "" → ':' ∉ m.data →
        invokeErrorFromThrowable (some m) cn =
          InvokeResult.errorRes "UNAVAILABLE" m)
    ∧ (∀ (m cn : String), trimWs m = "" →
        invokeErrorFromThrowable (some m) cn = invokeErrorFromThrowable none cn)
    ∧ (∀ (cn : String), ':' ∉ cn.data →
        invokeErrorFromThrowable none cn =
          InvokeResult.errorRes "UNAVAILABLE" cn)
    ∧ (∀ (onInvoke : InvokeRequest → HandlerOutcome) (s : SessState)
        (frame : List (String × Json)) (id : String) (m : Option String)
        (cn : String),
        asStringOrNull (Json.get frame "type") = some "invoke" →
        asStringOrNull (Json.get frame "id") = some id →
        onInvoke ⟨id, (asStringOrNull (Json.get frame "command")).getD "",
          asStringOrNull (Json.get frame "paramsJSON")⟩
          = HandlerOutcome.thrown m cn →
        sessStep onInvoke s (.recv (.wellFormed (.obj frame))) =
          ({ s with sent := s.sent ++
              [invokeResFrame id (invokeErrorFromThrowable m cn)] }, none)) := by
  refine ⟨?_, ?_, ?_, ?_, ?_, ?_⟩
  · intro code rest cn hc hU hm
    have hne : code ++ ":" ++ rest ≠ "" := by
      intro h0
      have h1 : (code ++ ":" ++ rest).data = [] := by rw [h0]
      rw [data_append3] at h1
      cases hcd : code.data <;> rw [hcd] at h1 <;> simp at h1
    have hnc : ∀ x ∈ code.data, (decide (x ≠ ':')) = true := by
      intro x hx
      have h2 := List.all_eq_true.mp hU x hx
      simp only [decide_eq_true_eq]
      intro he
      subst he
      exact absurd h2 (by decide)
    unfold invokeErrorFromThrowable
    rw [effective_of_trimmed _ cn hm hne]
    unfold invokeErrorFromMessage
    rw [data_append3, splitLimit2_middle _ _ hnc]
    have e1 : (⟨code.data⟩ : String) = code := rfl
    have e2 : (⟨rest.data⟩ : String) = rest := rfl
    simp only [e1, e2, code_trim code hU]
    rw [if_pos ⟨hc, hU⟩]
  · intro pre rest cn hpc hbad hm
    have hne : pre ++ ":" ++ rest ≠ "" := by
      intro h0
      have h1 : (pre ++ ":" ++ rest).data = [] := by rw [h0]
      rw [data_append3] at h1
      cases hcd : pre.data <;> rw [hcd] at h1 <;> simp at h1
    have hnc : ∀ x ∈ pre.data, (decide (x ≠ ':')) = true := by
      intro x hx
      simp only [decide_eq_true_eq]
      intro he
      subst he
      exact hpc hx
    unfold invokeErrorFromThrowable
    rw [effective_of_trimmed _ cn hm hne]
    unfold invokeErrorFromMessage
    rw [data_append3, splitLimit2_middle _ _ hnc]
    have e1 : (⟨pre.data⟩ : String) = pre := rfl
    simp only [e1]
    rw [if_neg hbad]
  · intro m cn hm hne hnc
    have hall : ∀ x ∈ m.data, (decide (x ≠ ':')) = true := by
      intro x hx
      simp only [decide_eq_true_eq]
      intro he
      subst he
      exact hnc hx
    unfold invokeErrorFromThrowable
    rw [effective_of_trimmed _ cn hm hne]
    unfold invokeErrorFromMessage splitLimit2 breakAtFirst
    rw [dropWhile_eq_nil_of _ _ hall]
  · intro m cn h
    unfold invokeErrorFromThrowable effectiveThrowableMessage
    simp [h]
  · intro cn hnc
    have hall : ∀ x ∈ cn.data, (decide (x ≠ ':')) = true := by
      intro x hx
      simp only [decide_eq_true_eq]
      intro he
      subst he
      exact hnc hx
    unfold invokeErrorFromThrowable
    rw [show effectiveThrowableMessage none cn = cn from rfl]
    unfold invokeErrorFromMessage splitLimit2 breakAtFirst
    rw [dropWhile_eq_nil_of _ _ hall]
  · intro onInvoke s frame id m cn h1 h2 h3
    simp [sessStep, Json.asObjectOrNull, h1, h2, h3]

/-- C10 witness: the mapping applied to a prefixed message with a space
after the colon, a colon-containing message with an invalid code prefix, a
plain message and a blank message. -/
theorem c10_witness :
    invokeErrorFromThrowable (some ("NOT_AUTHORIZED" ++ ":" ++ " denied"))
      "IllegalStateException"
      = InvokeResult.errorRes "NOT_AUTHORIZED" "denied"
    ∧ invokeErrorFromThrowable (some ("file not found" ++ ":" ++ " /tmp/x"))
      "IllegalStateException"
      = InvokeResult.errorRes "UNAVAILABLE" ("file not found" ++ ":" ++ " /tmp/x")
    ∧ invokeErrorFromThrowable (some "boom") "IllegalStateException"
      = InvokeResult.errorRes "UNAVAILABLE" "boom"
    ∧ invokeErrorFromThrowable (some "   ") "SecurityException"
      = InvokeResult.errorRes "UNAVAILABLE" "SecurityException" := by
  refine ⟨?_, ?_, ?_, ?_⟩
  · have h := c10_invoke_error_mapping.1 "NOT_AUTHORIZED" " denied"
      "IllegalStateException" (by decide) (by decide) (by decide)
    have h2 : (if trimWs " denied" = "" then
        "NOT_AUTHORIZED" ++ ":" ++ " denied" else trimWs " denied")
        = "denied" := by decide
    rw [h2] at h
    exact h
  · exact c10_invoke_error_mapping.2.1 "file not found" " /tmp/x"
      "IllegalStateException" (by decide) (by decide) (by decide)
  · exact c10_invoke_error_mapping.2.2.1 "boom" "IllegalStateException"
      (by decide) (by decide) (by decide)
  · exact (c10_invoke_error_mapping.2.2.2.1 "   " "SecurityException"
      (by decide)).trans
      (c10_invoke_error_mapping.2.2.2.2.1 "SecurityException" (by decide))
